import Mathlib

/-!
Verification of the financial-consistency and tenant-isolation rules of the
siblorepos point-of-sale system.  Money amounts (Django DecimalField values)
are embedded as rationals, calendar dates as integers (ordinal days), model
rows as structures, and each save method or view handler as a pure function
from the data it reads to the data it persists.
-/

/-- Invoice status choices (invoicing/models.py:23-30). -/
inductive InvStatus
  | DRAFT
  | SENT
  | PAID
  | PARTIALLY_PAID
  | OVERDUE
  | CANCELLED
deriving DecidableEq

/-- Debt status choices (sales/models.py:105-110).  The source value of the
second constructor is the string PARTIAL (display name Partially Paid); it is
spelled out in full here. -/
inductive DebtStatus
  | PENDING
  | PARTIALLY_PAID
  | PAID
  | OVERDUE
deriving DecidableEq

/-- Sale status choices (sales/models.py:41-46). -/
inductive SaleStatus
  | PENDING
  | COMPLETED
  | CANCELLED
  | REFUNDED
deriving DecidableEq

/-- Sale payment methods (sales/models.py:33-39). -/
inductive PayMethod
  | CASH
  | CARD
  | MOBILE
  | BANK
  | CREDIT
deriving DecidableEq

/-- The monetary fields, due date and status of an Invoice row
(invoicing/models.py:20-121).  The None-to-zero coalescing of the save
method (lines 142-149) is subsumed by the fields being total rationals. -/
structure Invoice where
  subtotal : ℚ
  tax_rate : ℚ
  tax_amount : ℚ
  discount_amount : ℚ
  total_amount : ℚ
  amount_paid : ℚ
  due_date : ℤ
  status : InvStatus
deriving DecidableEq

/-- Invoice.save (invoicing/models.py:136-165): recomputes tax_amount and
total_amount, then derives the status from the payment state, the due date
relative to the current date, and the prior status. -/
def Invoice.save (today : ℤ) (inv : Invoice) : Invoice :=
  let tax_amount := inv.subtotal * (inv.tax_rate / 100)
  let total_amount := inv.subtotal + tax_amount - inv.discount_amount
  let status :=
    if inv.amount_paid ≥ total_amount then InvStatus.PAID
    else if inv.amount_paid > 0 then InvStatus.PARTIALLY_PAID
    else if inv.due_date < today ∧ inv.status ≠ InvStatus.DRAFT ∧ inv.status ≠ InvStatus.CANCELLED then
      InvStatus.OVERDUE
    else inv.status
  { inv with tax_amount := tax_amount, total_amount := total_amount, status := status }

/-- Invoice.balance_due property (invoicing/models.py:185-187). -/
def Invoice.balance_due (inv : Invoice) : ℚ :=
  inv.total_amount - inv.amount_paid

/-- The pre_save signal update_invoice_status (invoicing/signals.py:43-51),
as a function of the fields it reads. -/
def update_invoice_status (today : ℤ) (amount_paid total_amount : ℚ)
    (due_date : ℤ) (status : InvStatus) : InvStatus :=
  if amount_paid ≥ total_amount then InvStatus.PAID
  else if amount_paid > 0 then InvStatus.PARTIALLY_PAID
  else if due_date < today ∧ status ≠ InvStatus.DRAFT ∧ status ≠ InvStatus.CANCELLED then
    InvStatus.OVERDUE
  else status

/-- Sum of a payment ledger, the aggregate Sum over the amount column. -/
def ledgerSum (l : List ℚ) : ℚ := l.sum

/-- An invoice together with its payment ledger (the amounts of its
InvoicePayment rows). -/
structure InvoiceLedger where
  invoice : Invoice
  payments : List ℚ
deriving DecidableEq

/-- InvoicePayment.save (invoicing/models.py:345-351) together with the
post_save signal update_invoice_paid_amount (invoicing/signals.py:29-40):
the payment row is inserted, the parent invoice amount_paid is recomputed as
the aggregate sum over all of its payments, and the invoice is saved. -/
def InvoicePayment.save (today : ℤ) (inv : Invoice) (payments : List ℚ)
    (amount : ℚ) : InvoiceLedger :=
  let payments := amount :: payments
  let inv := { inv with amount_paid := ledgerSum payments }
  { invoice := Invoice.save today inv, payments := payments }

/-- InvoicePaymentForm.clean_amount (invoicing/forms.py:141-151) combined
with the MinValueValidator on the amount field: the amount must be positive,
and, only when the form was constructed with the invoice keyword argument,
must not exceed that invoice balance_due. -/
def InvoicePaymentForm.clean_amount (invoiceBalance : Option ℚ) (amount : ℚ) : Bool :=
  if amount ≤ 0 then false
  else
    match invoiceBalance with
    | some b => decide (amount ≤ b)
    | none => true

/-- Result of posting a payment to the add_invoice_payment view. -/
structure AddInvoicePaymentResult where
  invoice : Invoice
  payments : List ℚ
  accepted : Bool
deriving DecidableEq

/-- add_invoice_payment (invoicing/views.py:454-475): the view validates the
posted data with InvoicePaymentForm(request.POST) — constructed WITHOUT the
invoice keyword argument, so clean_amount receives no balance to check — and,
when the form validates, saves the payment against the invoice. -/
def add_invoice_payment (today : ℤ) (inv : Invoice) (payments : List ℚ)
    (amount : ℚ) : AddInvoicePaymentResult :=
  if InvoicePaymentForm.clean_amount none amount then
    let r := InvoicePayment.save today inv payments amount
    { invoice := r.invoice, payments := r.payments, accepted := true }
  else
    { invoice := inv, payments := payments, accepted := false }

/-- The monetary fields, due date and status of a Debt row
(sales/models.py:104-120). -/
structure Debt where
  amount : ℚ
  amount_paid : ℚ
  balance : ℚ
  due_date : ℤ
  status : DebtStatus
deriving DecidableEq

/-- Debt.save (sales/models.py:128-138): recomputes balance and derives the
status from balance, amount_paid and the due date. -/
def Debt.save (today : ℤ) (d : Debt) : Debt :=
  let balance := d.amount - d.amount_paid
  let status :=
    if balance ≤ 0 then DebtStatus.PAID
    else if d.amount_paid > 0 then DebtStatus.PARTIALLY_PAID
    else if today > d.due_date then DebtStatus.OVERDUE
    else DebtStatus.PENDING
  { d with balance := balance, status := status }

/-- Result of posting a payment to the pay_debt view. -/
structure PayDebtResult where
  debt : Debt
  ledger : List ℚ
  accepted : Bool
deriving DecidableEq

/-- pay_debt (sales/views.py:414-444): rejects a non-positive amount and an
amount exceeding the debt balance; otherwise records a DebtPayment row,
increments the debt amount_paid by the amount, and saves the debt. -/
def pay_debt (today : ℤ) (d : Debt) (ledger : List ℚ) (amount : ℚ) : PayDebtResult :=
  if amount ≤ 0 then { debt := d, ledger := ledger, accepted := false }
  else if amount > d.balance then { debt := d, ledger := ledger, accepted := false }
  else
    let ledger := amount :: ledger
    let d := Debt.save today { d with amount_paid := d.amount_paid + amount }
    { debt := d, ledger := ledger, accepted := true }

/-- Correspondence between the Invoice status values and the Debt status
values, used to compare the two status derivations as the spec asks; the
invoice-only states DRAFT, SENT and CANCELLED have no Debt counterpart. -/
def invStatusToDebtStatus : InvStatus → Option DebtStatus
  | InvStatus.PAID => some DebtStatus.PAID
  | InvStatus.PARTIALLY_PAID => some DebtStatus.PARTIALLY_PAID
  | InvStatus.OVERDUE => some DebtStatus.OVERDUE
  | _ => none

/-- C3: for every invoice and every save, the stored tax_amount equals
subtotal times tax_rate over 100 and the stored total_amount equals
subtotal plus tax_amount minus discount_amount, both recomputed on the
save itself (invoicing/models.py:151-155). -/
theorem C3_invoice_save_total_formula (today : ℤ) (inv : Invoice) :
    (Invoice.save today inv).tax_amount
      = (Invoice.save today inv).subtotal * ((Invoice.save today inv).tax_rate / 100)
  ∧ (Invoice.save today inv).total_amount
      = (Invoice.save today inv).subtotal + (Invoice.save today inv).tax_amount
        - (Invoice.save today inv).discount_amount :=
  ⟨rfl, rfl⟩

/-- C5 counterexample: Invoice.save moves a CANCELLED invoice to PAID as soon
as amount_paid reaches total_amount, a transition the claimed diagram
DRAFT to SENT to PARTIALLY_PAID or PAID to OVERDUE or CANCELLED does not
allow out of CANCELLED. -/
theorem C5_cancelled_invoice_becomes_paid :
    (Invoice.save 10 ⟨100, 0, 0, 0, 100, 100, 50, InvStatus.CANCELLED⟩).status = InvStatus.PAID
  ∧ (⟨100, 0, 0, 0, 100, 100, 50, InvStatus.CANCELLED⟩ : Invoice).status = InvStatus.CANCELLED := by
  constructor
  · norm_num [Invoice.save]
  · rfl

/-- C5 amended: balance_due is total_amount minus amount_paid, and the status
stored by every save is exactly the pure function of (amount_paid, recomputed
total_amount, due_date, current date, prior status) that the pre_save signal
update_invoice_status computes; the derivation also enters PAID or
PARTIALLY_PAID directly from DRAFT or CANCELLED. -/
theorem C5_status_pure_function_of_save (today : ℤ) (inv : Invoice) :
    (Invoice.save today inv).status
      = update_invoice_status today inv.amount_paid (Invoice.save today inv).total_amount
          inv.due_date inv.status
  ∧ Invoice.balance_due (Invoice.save today inv)
      = (Invoice.save today inv).total_amount - (Invoice.save today inv).amount_paid :=
  ⟨rfl, rfl⟩

/-- C8 counterexample: on the same state (amount 100, nothing paid, due date
10, current status OVERDUE, evaluated at day 5) Invoice.save keeps OVERDUE
while Debt.save resets the status to PENDING, so the two status derivations
are not the same function. -/
theorem C8_status_derivations_differ :
    (Invoice.save 5 ⟨100, 0, 0, 0, 100, 0, 10, InvStatus.OVERDUE⟩).status = InvStatus.OVERDUE
  ∧ (Debt.save 5 ⟨100, 0, 100, 10, DebtStatus.OVERDUE⟩).status = DebtStatus.PENDING
  ∧ invStatusToDebtStatus InvStatus.OVERDUE ≠ some DebtStatus.PENDING := by
  refine ⟨?_, ?_, by simp [invStatusToDebtStatus]⟩
  · norm_num [Invoice.save]
  · norm_num [Debt.save]

/-- C8 amended: after every Debt.save the balance equals amount minus
amount_paid; and whenever amount_paid is positive the Debt status derivation
agrees with the Invoice one under the PAID and PARTIALLY_PAID correspondence;
with nothing paid they diverge, because Debt.save discards the prior status
while the invoice derivation preserves it and exempts DRAFT and CANCELLED
from OVERDUE. -/
theorem C8_balance_and_paid_branch_agreement (today : ℤ) (d : Debt) (cur : InvStatus)
    (h : 0 < d.amount_paid) :
    (Debt.save today d).balance = d.amount - d.amount_paid
  ∧ invStatusToDebtStatus (update_invoice_status today d.amount_paid d.amount d.due_date cur)
      = some (Debt.save today d).status := by
  refine ⟨rfl, ?_⟩
  simp only [Debt.save, update_invoice_status]
  by_cases hge : d.amount_paid ≥ d.amount
  · rw [if_pos hge, if_pos (by linarith : d.amount - d.amount_paid ≤ 0)]
    rfl
  · rw [if_neg hge, if_neg (by simp at hge ⊢; linarith : ¬ d.amount - d.amount_paid ≤ 0),
      if_pos h, if_pos h]
    rfl

/-- C8 amended witness at a concrete partially paid debt. -/
theorem C8_balance_and_paid_branch_agreement_witness :
    0 < (⟨100, 40, 60, 0, DebtStatus.PENDING⟩ : Debt).amount_paid
  ∧ ((Debt.save 0 ⟨100, 40, 60, 0, DebtStatus.PENDING⟩).balance
        = (⟨100, 40, 60, 0, DebtStatus.PENDING⟩ : Debt).amount
          - (⟨100, 40, 60, 0, DebtStatus.PENDING⟩ : Debt).amount_paid
    ∧ invStatusToDebtStatus
        (update_invoice_status 0 (⟨100, 40, 60, 0, DebtStatus.PENDING⟩ : Debt).amount_paid
          (⟨100, 40, 60, 0, DebtStatus.PENDING⟩ : Debt).amount
          (⟨100, 40, 60, 0, DebtStatus.PENDING⟩ : Debt).due_date InvStatus.SENT)
        = some (Debt.save 0 ⟨100, 40, 60, 0, DebtStatus.PENDING⟩).status) :=
  ⟨by norm_num, C8_balance_and_paid_branch_agreement 0 _ InvStatus.SENT (by norm_num)⟩

/-- C2 counterexample: pay_debt increments the stored amount_paid instead of
recomputing it from the payment set, so on a debt whose stored amount_paid
(5) disagrees with its ledger (empty) an accepted payment of 1 leaves
amount_paid at 6 while the ledger sums to 1. -/
theorem C2_debt_not_recomputed_from_ledger :
    (pay_debt 0 ⟨10, 5, 5, 100, DebtStatus.PARTIALLY_PAID⟩ [] 1).accepted = true
  ∧ (pay_debt 0 ⟨10, 5, 5, 100, DebtStatus.PARTIALLY_PAID⟩ [] 1).debt.amount_paid
      ≠ ledgerSum (pay_debt 0 ⟨10, 5, 5, 100, DebtStatus.PARTIALLY_PAID⟩ [] 1).ledger := by
  constructor
  · norm_num [pay_debt]
  · norm_num [pay_debt, Debt.save, ledgerSum]

/-- C2 amended: for invoices, every InvoicePayment insert recomputes the
stored amount_paid as the ledger sum, so equality with the ledger always
holds afterwards; for debts, pay_debt increments amount_paid by the payment
amount, which preserves the equality with the ledger only when it already
held before the insert. -/
theorem C2_ledger_sum_equalities (today : ℤ) (inv : Invoice) (payments : List ℚ)
    (amount : ℚ) (d : Debt) (dl : List ℚ) (damount : ℚ)
    (hd : d.amount_paid = ledgerSum dl)
    (hacc : (pay_debt today d dl damount).accepted = true) :
    (InvoicePayment.save today inv payments amount).invoice.amount_paid
      = ledgerSum (InvoicePayment.save today inv payments amount).payments
  ∧ (pay_debt today d dl damount).debt.amount_paid
      = ledgerSum (pay_debt today d dl damount).ledger := by
  refine ⟨rfl, ?_⟩
  by_cases h1 : damount ≤ 0
  · simp [pay_debt, h1] at hacc
  · by_cases h2 : damount > d.balance
    · simp [pay_debt, h1, h2] at hacc
    · simp only [pay_debt, if_neg h1, if_neg h2]
      have hsave : (Debt.save today { d with amount_paid := d.amount_paid + damount }).amount_paid
          = d.amount_paid + damount := rfl
      simp only [hsave, hd, ledgerSum, List.sum_cons]
      show dl.sum + damount = damount + dl.sum
      ring

/-- C2 amended witness: a fresh debt (nothing paid, empty ledger) accepting a
payment of 4, and an invoice payment of 30 on an empty ledger. -/
theorem C2_ledger_sum_equalities_witness :
    (⟨10, 0, 10, 100, DebtStatus.PENDING⟩ : Debt).amount_paid = ledgerSum []
  ∧ (pay_debt 0 ⟨10, 0, 10, 100, DebtStatus.PENDING⟩ [] 4).accepted = true
  ∧ ((InvoicePayment.save 0 ⟨100, 0, 0, 0, 100, 0, 30, InvStatus.DRAFT⟩ [] 30).invoice.amount_paid
        = ledgerSum (InvoicePayment.save 0 ⟨100, 0, 0, 0, 100, 0, 30, InvStatus.DRAFT⟩ [] 30).payments
    ∧ (pay_debt 0 ⟨10, 0, 10, 100, DebtStatus.PENDING⟩ [] 4).debt.amount_paid
        = ledgerSum (pay_debt 0 ⟨10, 0, 10, 100, DebtStatus.PENDING⟩ [] 4).ledger) :=
  ⟨by norm_num [ledgerSum], by norm_num [pay_debt],
    C2_ledger_sum_equalities 0 _ [] 30 _ [] 4 (by norm_num [ledgerSum]) (by norm_num [pay_debt])⟩

/-- C4: the add_invoice_payment view accepts a payment of 150 against an
invoice with total_amount 100 and nothing paid, because it constructs
InvoicePaymentForm without the invoice keyword and the balance check in
clean_amount is skipped; the stored amount_paid becomes 150, exceeding
total_amount, and the status flips to PAID.  The same amount handed to the
form together with the invoice balance is rejected, and pay_debt rejects the
analogous over-balance payment on a debt. -/
theorem C4_invoice_overpayment_accepted :
    (add_invoice_payment 0 ⟨100, 0, 0, 0, 100, 0, 30, InvStatus.DRAFT⟩ [] 150).accepted = true
  ∧ (add_invoice_payment 0 ⟨100, 0, 0, 0, 100, 0, 30, InvStatus.DRAFT⟩ [] 150).invoice.amount_paid = 150
  ∧ (add_invoice_payment 0 ⟨100, 0, 0, 0, 100, 0, 30, InvStatus.DRAFT⟩ [] 150).invoice.total_amount = 100
  ∧ (add_invoice_payment 0 ⟨100, 0, 0, 0, 100, 0, 30, InvStatus.DRAFT⟩ [] 150).invoice.status = InvStatus.PAID
  ∧ InvoicePaymentForm.clean_amount
      (some (Invoice.balance_due ⟨100, 0, 0, 0, 100, 0, 30, InvStatus.DRAFT⟩)) 150 = false
  ∧ (pay_debt 0 ⟨100, 0, 100, 30, DebtStatus.PENDING⟩ [] 150).accepted = false := by
  refine ⟨?_, ?_, ?_, ?_, ?_, ?_⟩ <;>
    norm_num [add_invoice_payment, InvoicePayment.save, Invoice.save,
      InvoicePaymentForm.clean_amount, Invoice.balance_due, ledgerSum, pay_debt]

/-- C10: saving an invoice whose discount_amount exceeds subtotal plus the
recomputed tax_amount, with nothing paid, stores a negative total_amount (the
MinValueValidator is not consulted by save) and marks the invoice PAID,
because zero amount_paid is greater than or equal to the negative total. -/
theorem C10_negative_total_marks_paid (today : ℤ) (inv : Invoice)
    (h0 : inv.amount_paid = 0)
    (hd : inv.subtotal + inv.subtotal * (inv.tax_rate / 100) < inv.discount_amount) :
    (Invoice.save today inv).total_amount < 0
  ∧ (Invoice.save today inv).status = InvStatus.PAID := by
  have htot : (Invoice.save today inv).total_amount
      = inv.subtotal + inv.subtotal * (inv.tax_rate / 100) - inv.discount_amount := rfl
  have hneg : (Invoice.save today inv).total_amount < 0 := by rw [htot]; linarith
  refine ⟨hneg, ?_⟩
  have hge : inv.amount_paid ≥ inv.subtotal + inv.subtotal * (inv.tax_rate / 100)
      - inv.discount_amount := by rw [h0]; rw [htot] at hneg; linarith
  simp only [Invoice.save]
  rw [if_pos hge]

/-- C10 witness: subtotal 100, no tax, discount 150, nothing paid. -/
theorem C10_negative_total_marks_paid_witness :
    (⟨100, 0, 0, 150, 0, 0, 0, InvStatus.DRAFT⟩ : Invoice).amount_paid = 0
  ∧ (⟨100, 0, 0, 150, 0, 0, 0, InvStatus.DRAFT⟩ : Invoice).subtotal
      + (⟨100, 0, 0, 150, 0, 0, 0, InvStatus.DRAFT⟩ : Invoice).subtotal
        * ((⟨100, 0, 0, 150, 0, 0, 0, InvStatus.DRAFT⟩ : Invoice).tax_rate / 100)
      < (⟨100, 0, 0, 150, 0, 0, 0, InvStatus.DRAFT⟩ : Invoice).discount_amount
  ∧ ((Invoice.save 0 ⟨100, 0, 0, 150, 0, 0, 0, InvStatus.DRAFT⟩).total_amount < 0
    ∧ (Invoice.save 0 ⟨100, 0, 0, 150, 0, 0, 0, InvStatus.DRAFT⟩).status = InvStatus.PAID) :=
  ⟨rfl, by norm_num,
    C10_negative_total_marks_paid 0 _ rfl (by norm_num)⟩

/-- Role choices of UserProfile (users/models.py:5-9). -/
inductive Role
  | SITE_ADMIN
  | SHOP_ADMIN
  | CASHIER
deriving DecidableEq

/-- The fields of UserProfile that the list views read (users/models.py:4-48):
the primary key, the Django superuser flag, the role, the shop_admin foreign
key a cashier belongs to, and the username used for created_by matching. -/
structure UserProfile where
  id : Nat
  is_superuser : Bool
  role : Role
  shop_admin : Option Nat
  username : Nat
deriving DecidableEq

/-- UserProfile.is_site_admin property (users/models.py:38-40). -/
def UserProfile.is_site_admin (p : UserProfile) : Bool := p.is_superuser

/-- UserProfile.is_shop_admin property (users/models.py:42-44). -/
def UserProfile.is_shop_admin (p : UserProfile) : Bool := p.role == Role.SHOP_ADMIN

/-- UserProfile.is_cashier property (users/models.py:46-48). -/
def UserProfile.is_cashier (p : UserProfile) : Bool := p.role == Role.CASHIER

/-- UserProfile.can_view_own_sales_only (users/models.py:77-78). -/
def UserProfile.can_view_own_sales_only (p : UserProfile) : Bool := p.is_cashier

/-- The fields of a Sale row that sales_list reads (sales/models.py:32-62):
the nullable shop_admin tenant key, the creating username, status, payment
method and creation date. -/
structure SaleRow where
  shop_admin : Option Nat
  created_by : Nat
  status : SaleStatus
  payment_method : PayMethod
  created_date : ℤ
deriving DecidableEq

/-- The optional GET filters of sales_list (sales/views.py:236-248). -/
structure SalesListParams where
  status : Option SaleStatus
  payment_method : Option PayMethod
  date_from : Option ℤ
  date_to : Option ℤ

/-- An optional queryset filter: applied when the parameter is present,
the identity otherwise (the `if param: qs = qs.filter(...)` idiom). -/
def optFilter (o : Option α) (pred : α → β → Bool) (xs : List β) : List β :=
  match o with
  | some a => xs.filter (pred a)
  | none => xs

/-- sales_list (sales/views.py:219-263): cashiers (can_view_own_sales_only)
see sales filtered by their own username; every other caller gets the whole
Sale table — no shop_admin filter is ever applied — and the optional GET
filters then refine by status, payment method and date range. -/
def sales_list (profile : UserProfile) (params : SalesListParams)
    (db : List SaleRow) : List SaleRow :=
  let sales :=
    if profile.can_view_own_sales_only then
      db.filter (fun s => s.created_by == profile.username)
    else db
  let s1 := optFilter params.status (fun st s => s.status == st) sales
  let s2 := optFilter params.payment_method (fun pm s => s.payment_method == pm) s1
  let s3 := optFilter params.date_from (fun dfrom s => decide (dfrom ≤ s.created_date)) s2
  optFilter params.date_to (fun dto s => decide (s.created_date ≤ dto)) s3

/-- The fields of an Invoice row that InvoiceListView reads
(invoicing/models.py:33-52): the non-nullable shop_admin tenant key, the
customer key, the status and the issue date. -/
structure InvoiceRow where
  shop_admin : Nat
  customer : Nat
  status : InvStatus
  issue_date : ℤ
deriving DecidableEq

/-- The optional GET filters of InvoiceListView (invoicing/views.py:68-92);
the search parameter is the Q-object predicate over invoice number and
customer name and email, carried here as the predicate it denotes. -/
structure InvoiceListParams where
  status : Option InvStatus
  customer : Option Nat
  date_from : Option ℤ
  date_to : Option ℤ
  search : Option (InvoiceRow → Bool)

/-- InvoiceListView.get_queryset (invoicing/views.py:53-94): site admins see
every invoice, shop admins the invoices whose shop_admin is their own
profile, cashiers the invoices of their shop_admin, anyone else none; the
optional GET filters then refine the queryset. -/
def InvoiceListView.get_queryset (profile : UserProfile) (params : InvoiceListParams)
    (db : List InvoiceRow) : List InvoiceRow :=
  let queryset :=
    if profile.is_site_admin then db
    else if profile.is_shop_admin then db.filter (fun i => i.shop_admin == profile.id)
    else if profile.is_cashier then db.filter (fun i => some i.shop_admin == profile.shop_admin)
    else []
  let q1 := optFilter params.status (fun st i => i.status == st) queryset
  let q2 := optFilter params.customer (fun c i => i.customer == c) q1
  let q3 := optFilter params.date_from (fun dfrom i => decide (dfrom ≤ i.issue_date)) q2
  let q4 := optFilter params.date_to (fun dto i => decide (i.issue_date ≤ dto)) q3
  optFilter params.search (fun f i => f i) q4

/-- The tenant a non-site-admin caller is scoped to: a shop admin is its own
tenant, a cashier belongs to its shop_admin tenant, anyone else to none. -/
def callerTenant (p : UserProfile) : Option Nat :=
  if p.is_shop_admin then some p.id
  else if p.is_cashier then p.shop_admin
  else none

lemma mem_of_mem_optFilter {o : Option α} {pred : α → β → Bool} {xs : List β}
    {b : β} (h : b ∈ optFilter o pred xs) : b ∈ xs := by
  cases o with
  | none => exact h
  | some a => exact List.mem_of_mem_filter h

/-- A shop admin of tenant 1 requesting sales_list with no GET filters
retrieves a sale whose shop_admin is tenant 2: the Sale list view applies no
tenant filter for non-cashier callers. -/
def profileTenant1 : UserProfile :=
  { id := 1, is_superuser := false, role := Role.SHOP_ADMIN, shop_admin := none, username := 7 }

/-- A sale row belonging to tenant 2, created by a user of tenant 2. -/
def saleOfTenant2 : SaleRow :=
  { shop_admin := some 2, created_by := 9, status := SaleStatus.COMPLETED,
    payment_method := PayMethod.CASH, created_date := 0 }

/-- C1 counterexample: the non-site-admin shop admin of tenant 1 retrieves,
via the sales_list operation, a record whose shop_admin is tenant 2. -/
theorem C1_sales_list_leaks_across_tenants :
    profileTenant1.is_site_admin = false
  ∧ saleOfTenant2 ∈ sales_list profileTenant1 ⟨none, none, none, none⟩ [saleOfTenant2]
  ∧ saleOfTenant2.shop_admin ≠ some profileTenant1.id := by
  refine ⟨rfl, ?_, by decide⟩
  simp [sales_list, profileTenant1, saleOfTenant2, optFilter,
    UserProfile.can_view_own_sales_only, UserProfile.is_cashier]

/-- C1 amended: tenant isolation holds for the invoice list operation — every
invoice InvoiceListView.get_queryset returns to a caller whose role is not
site-admin carries the caller's own tenant as shop_admin — but not for the
sale list operation, which never filters by shop_admin. -/
theorem C1_invoice_list_tenant_isolation (profile : UserProfile)
    (params : InvoiceListParams) (db : List InvoiceRow) (inv : InvoiceRow)
    (hsite : profile.is_site_admin = false)
    (hmem : inv ∈ InvoiceListView.get_queryset profile params db) :
    some inv.shop_admin = callerTenant profile := by
  unfold InvoiceListView.get_queryset at hmem
  replace hmem := mem_of_mem_optFilter (mem_of_mem_optFilter
    (mem_of_mem_optFilter (mem_of_mem_optFilter (mem_of_mem_optFilter hmem))))
  rw [hsite] at hmem
  simp only [Bool.false_eq_true, if_false] at hmem
  unfold callerTenant
  by_cases hshop : profile.is_shop_admin
  · rw [if_pos hshop] at hmem ⊢
    rcases List.mem_filter.mp hmem with ⟨-, heq⟩
    rw [beq_iff_eq] at heq
    rw [heq]
  · rw [if_neg hshop] at hmem ⊢
    by_cases hcash : profile.is_cashier
    · rw [if_pos hcash] at hmem ⊢
      rcases List.mem_filter.mp hmem with ⟨-, heq⟩
      rw [beq_iff_eq] at heq
      exact heq
    · rw [if_neg hcash] at hmem
      cases hmem

/-- An invoice row belonging to tenant 1. -/
def invoiceOfTenant1 : InvoiceRow :=
  { shop_admin := 1, customer := 3, status := InvStatus.DRAFT, issue_date := 0 }

/-- C1 amended witness: the shop admin of tenant 1 lists invoices and the one
invoice returned carries its own tenant. -/
theorem C1_invoice_list_tenant_isolation_witness :
    profileTenant1.is_site_admin = false
  ∧ invoiceOfTenant1 ∈ InvoiceListView.get_queryset profileTenant1
      ⟨none, none, none, none, none⟩ [invoiceOfTenant1]
  ∧ some invoiceOfTenant1.shop_admin = callerTenant profileTenant1 := by
  have hmem : invoiceOfTenant1 ∈ InvoiceListView.get_queryset profileTenant1
      ⟨none, none, none, none, none⟩ [invoiceOfTenant1] := by
    simp [InvoiceListView.get_queryset, optFilter, profileTenant1, invoiceOfTenant1,
      UserProfile.is_site_admin, UserProfile.is_shop_admin]
  exact ⟨rfl, hmem,
    C1_invoice_list_tenant_isolation profileTenant1 _ _ _ rfl hmem⟩

/-- A persisted SaleItem row (sales/models.py:86-102): product key, quantity,
unit price and total price. -/
structure SaleItemR where
  productId : Nat
  quantity : ℤ
  unit_price : ℚ
  total_price : ℚ
deriving DecidableEq

/-- Pointwise update of the stock table (the effect of stock.save() after
assigning stock.quantity). -/
def stockUpdate (st : Nat → ℤ) (pid : Nat) (q : ℤ) : Nat → ℤ :=
  fun p => if p = pid then q else st p

/-- Database state left by the item loop of process_sale: the stock table,
the persisted SaleItem rows, the accumulated subtotal, and whether the loop
ran to completion. -/
structure ItemsResult where
  stock : Nat → ℤ
  items : List SaleItemR
  subtotal : ℚ
  ok : Bool

/-- The item loop of process_sale (sales/views.py:137-171): for each
requested (product, quantity), if the stock is short the handler returns
failure on the spot — the rows already written stay written — otherwise it
persists a SaleItem at the product selling price, decrements and saves the
stock, and accumulates the subtotal.  (The StockMovement audit rows, not
touched by any claim, are omitted.) -/
def processItems (price : Nat → ℚ) : List (Nat × ℤ) → (Nat → ℤ) → ItemsResult
  | [], stock => ⟨stock, [], 0, true⟩
  | (pid, q) :: rest, stock =>
    if stock pid < q then ⟨stock, [], 0, false⟩
    else
      let item : SaleItemR := ⟨pid, q, price pid, (q : ℚ) * price pid⟩
      let r := processItems price rest (stockUpdate stock pid (stock pid - q))
      ⟨r.stock, item :: r.items, item.total_price + r.subtotal, r.ok⟩

/-- Database state left by one process_sale request. -/
structure ProcessSaleResult where
  stock : Nat → ℤ
  sale_created : Bool
  sale_subtotal : ℚ
  sale_total_amount : ℚ
  sale_amount_paid : ℚ
  items : List SaleItemR
  debt : Option Debt
  success : Bool

/-- process_sale (sales/views.py:104-217): the Sale row is created first
(with zero totals), then the item loop runs; on success the sale totals are
updated — amount_paid is the subtotal unless the payment method is CREDIT —
and a Debt row is created for a CREDIT sale with a customer, due in 30 days;
on a failed stock check the handler answers failure, leaving the Sale row
with zero totals and whatever items and stock decrements had been written. -/
def process_sale (price : Nat → ℚ) (today : ℤ) (payment_method : PayMethod)
    (has_customer : Bool) (req : List (Nat × ℤ)) (stock : Nat → ℤ) : ProcessSaleResult :=
  let r := processItems price req stock
  if r.ok then
    { stock := r.stock, sale_created := true, sale_subtotal := r.subtotal,
      sale_total_amount := r.subtotal,
      sale_amount_paid := if payment_method == PayMethod.CREDIT then 0 else r.subtotal,
      items := r.items,
      debt :=
        if payment_method == PayMethod.CREDIT && has_customer then
          some { amount := r.subtotal, amount_paid := 0, balance := r.subtotal,
                 due_date := today + 30, status := DebtStatus.PENDING }
        else none,
      success := true }
  else
    { stock := r.stock, sale_created := true, sale_subtotal := 0, sale_total_amount := 0,
      sale_amount_paid := 0, items := r.items, debt := none, success := false }

/-- The stock-restoring loop of sale_delete (sales/views.py:345-350): each
deleted sale item adds its quantity back onto the stock record. -/
def restoreStock (stock : Nat → ℤ) : List SaleItemR → (Nat → ℤ)
  | [] => stock
  | it :: rest => restoreStock (stockUpdate stock it.productId (stock it.productId + it.quantity)) rest

/-- sale_delete (sales/views.py:319-360), reduced to its effect on stock:
restore the quantities of the sale items, then the sale row cascades away. -/
def sale_delete (stock : Nat → ℤ) (items : List SaleItemR) : Nat → ℤ :=
  restoreStock stock items

/-- Database state left by a sequence of process_sale requests. -/
structure MultiSaleResult where
  stock : Nat → ℤ
  itemLists : List (List SaleItemR)
  success : Bool

/-- A sequence of process_sale requests, threading the stock table and
collecting each sale item list; success means every request succeeded. -/
def processSales (price : Nat → ℚ) (today : ℤ) (pm : PayMethod) (hc : Bool) :
    List (List (Nat × ℤ)) → (Nat → ℤ) → MultiSaleResult
  | [], stock => ⟨stock, [], true⟩
  | req :: rest, stock =>
    let r := process_sale price today pm hc req stock
    let m := processSales price today pm hc rest r.stock
    ⟨m.stock, r.items :: m.itemLists, r.success && m.success⟩

/-- Deleting a list of sales one after the other. -/
def deleteSales (stock : Nat → ℤ) : List (List SaleItemR) → (Nat → ℤ)
  | [] => stock
  | items :: rest => deleteSales (sale_delete stock items) rest

/-- Total quantity of the sale items for a given product. -/
def itemsQtyAt (pid : Nat) : List SaleItemR → ℤ
  | [] => 0
  | it :: rest => (if it.productId = pid then it.quantity else 0) + itemsQtyAt pid rest

/-- Total requested quantity of a given product in one request. -/
def reqQtyAt (pid : Nat) : List (Nat × ℤ) → ℤ
  | [] => 0
  | (p, q) :: rest => (if p = pid then q else 0) + reqQtyAt pid rest

/-- Total requested quantity of a given product across requests. -/
def reqsQtyAt (pid : Nat) : List (List (Nat × ℤ)) → ℤ
  | [] => 0
  | r :: rest => reqQtyAt pid r + reqsQtyAt pid rest

/-- Total item quantity of a given product across sale item lists. -/
def listsQtyAt (pid : Nat) : List (List SaleItemR) → ℤ
  | [] => 0
  | l :: rest => itemsQtyAt pid l + listsQtyAt pid rest

lemma processItems_stock (price : Nat → ℚ) (req : List (Nat × ℤ)) :
    ∀ (stock : Nat → ℤ) (pid : Nat),
      (processItems price req stock).stock pid
        = stock pid - itemsQtyAt pid (processItems price req stock).items := by
  induction req with
  | nil => intro stock pid; simp [processItems, itemsQtyAt]
  | cons hd rest ih =>
    intro stock pid
    obtain ⟨p, q⟩ := hd
    by_cases hlt : stock p < q
    · simp [processItems, hlt, itemsQtyAt]
    · simp only [processItems, hlt, if_false, itemsQtyAt]
      rw [ih (stockUpdate stock p (stock p - q)) pid]
      unfold stockUpdate
      by_cases hp : p = pid
      · subst hp
        simp only [if_true, eq_self_iff_true]
        ring
      · simp only [if_neg (fun h => hp (Eq.symm h)), if_neg hp]
        ring

lemma processItems_ok_qty (price : Nat → ℚ) (req : List (Nat × ℤ)) :
    ∀ (stock : Nat → ℤ) (pid : Nat),
      (processItems price req stock).ok = true →
      itemsQtyAt pid (processItems price req stock).items = reqQtyAt pid req := by
  induction req with
  | nil => intro stock pid _; simp [processItems, itemsQtyAt, reqQtyAt]
  | cons hd rest ih =>
    intro stock pid hok
    obtain ⟨p, q⟩ := hd
    by_cases hlt : stock p < q
    · simp [processItems, hlt] at hok
    · simp only [processItems, hlt, if_false, itemsQtyAt, reqQtyAt] at hok ⊢
      rw [ih (stockUpdate stock p (stock p - q)) pid hok]

lemma restoreStock_apply (items : List SaleItemR) :
    ∀ (stock : Nat → ℤ) (pid : Nat),
      restoreStock stock items pid = stock pid + itemsQtyAt pid items := by
  induction items with
  | nil => intro stock pid; simp [restoreStock, itemsQtyAt]
  | cons it rest ih =>
    intro stock pid
    simp only [restoreStock, itemsQtyAt]
    rw [ih]
    unfold stockUpdate
    by_cases hp : it.productId = pid
    · subst hp
      simp only [if_true, eq_self_iff_true]
      ring
    · simp only [if_neg (fun h => hp (Eq.symm h)), if_neg hp]
      ring

lemma process_sale_stock (price : Nat → ℚ) (today : ℤ) (pm : PayMethod) (hc : Bool)
    (req : List (Nat × ℤ)) (stock : Nat → ℤ) (pid : Nat) :
    (process_sale price today pm hc req stock).stock pid
      = stock pid - itemsQtyAt pid (process_sale price today pm hc req stock).items := by
  unfold process_sale
  by_cases hok : (processItems price req stock).ok
  · simp only [hok, if_true]
    exact processItems_stock price req stock pid
  · simp only [hok, if_false]
    exact processItems_stock price req stock pid

lemma process_sale_ok_qty (price : Nat → ℚ) (today : ℤ) (pm : PayMethod) (hc : Bool)
    (req : List (Nat × ℤ)) (stock : Nat → ℤ) (pid : Nat)
    (hok : (process_sale price today pm hc req stock).success = true) :
    itemsQtyAt pid (process_sale price today pm hc req stock).items = reqQtyAt pid req := by
  unfold process_sale at hok ⊢
  by_cases h : (processItems price req stock).ok
  · simp only [h, if_true]
    exact processItems_ok_qty price req stock pid h
  · simp [h] at hok

lemma processSales_stock (price : Nat → ℚ) (today : ℤ) (pm : PayMethod) (hc : Bool)
    (reqs : List (List (Nat × ℤ))) :
    ∀ (stock : Nat → ℤ) (pid : Nat),
      (processSales price today pm hc reqs stock).stock pid
        = stock pid - listsQtyAt pid (processSales price today pm hc reqs stock).itemLists := by
  induction reqs with
  | nil => intro stock pid; simp [processSales, listsQtyAt]
  | cons req rest ih =>
    intro stock pid
    simp only [processSales, listsQtyAt]
    rw [ih, process_sale_stock]
    ring

lemma processSales_ok_qty (price : Nat → ℚ) (today : ℤ) (pm : PayMethod) (hc : Bool)
    (reqs : List (List (Nat × ℤ))) :
    ∀ (stock : Nat → ℤ) (pid : Nat),
      (processSales price today pm hc reqs stock).success = true →
      listsQtyAt pid (processSales price today pm hc reqs stock).itemLists
        = reqsQtyAt pid reqs := by
  induction reqs with
  | nil => intro stock pid _; simp [processSales, listsQtyAt, reqsQtyAt]
  | cons req rest ih =>
    intro stock pid hok
    simp only [processSales, Bool.and_eq_true] at hok
    simp only [processSales, listsQtyAt, reqsQtyAt]
    rw [ih _ pid hok.2, process_sale_ok_qty price today pm hc req stock pid hok.1]

lemma deleteSales_apply (lists : List (List SaleItemR)) :
    ∀ (stock : Nat → ℤ) (pid : Nat),
      deleteSales stock lists pid = stock pid + listsQtyAt pid lists := by
  induction lists with
  | nil => intro stock pid; simp [deleteSales, listsQtyAt]
  | cons items rest ih =>
    intro stock pid
    simp only [deleteSales, listsQtyAt, sale_delete]
    rw [ih, restoreStock_apply]
    ring

/-- C6: after a sequence of sale requests all of which succeed, the stock of
every product equals its starting stock minus the total quantity requested
for it, and deleting all of those sales restores the starting stock
exactly. -/
theorem C6_stock_decrement_and_restore (price : Nat → ℚ) (today : ℤ) (pm : PayMethod)
    (hc : Bool) (reqs : List (List (Nat × ℤ))) (stock : Nat → ℤ) (pid : Nat)
    (hsucc : (processSales price today pm hc reqs stock).success = true) :
    (processSales price today pm hc reqs stock).stock pid
      = stock pid - reqsQtyAt pid reqs
  ∧ deleteSales (processSales price today pm hc reqs stock).stock
      (processSales price today pm hc reqs stock).itemLists pid = stock pid := by
  have h1 := processSales_stock price today pm hc reqs stock pid
  have h2 := processSales_ok_qty price today pm hc reqs stock pid hsucc
  have h3 := deleteSales_apply (processSales price today pm hc reqs stock).itemLists
    (processSales price today pm hc reqs stock).stock pid
  constructor
  · rw [h1, h2]
  · rw [h3, h1]
    ring

/-- C6 witness: two sales of 2 and 3 units of product 0 against a starting
stock of 10 everywhere. -/
theorem C6_stock_decrement_and_restore_witness :
    (processSales (fun _ => 5) 0 PayMethod.CASH false [[(0, 2)], [(0, 3)]] (fun _ => 10)).success = true
  ∧ ((processSales (fun _ => 5) 0 PayMethod.CASH false [[(0, 2)], [(0, 3)]] (fun _ => 10)).stock 0
        = (fun _ => (10 : ℤ)) 0 - reqsQtyAt 0 [[(0, 2)], [(0, 3)]]
    ∧ deleteSales (processSales (fun _ => 5) 0 PayMethod.CASH false [[(0, 2)], [(0, 3)]] (fun _ => 10)).stock
        (processSales (fun _ => 5) 0 PayMethod.CASH false [[(0, 2)], [(0, 3)]] (fun _ => 10)).itemLists 0
        = (fun _ => (10 : ℤ)) 0) :=
  ⟨by decide,
    C6_stock_decrement_and_restore (fun _ => 5) 0 PayMethod.CASH false
      [[(0, 2)], [(0, 3)]] (fun _ => 10) 0 (by decide)⟩

/-- The fixed selling price used by the concrete C7 scenario. -/
def priceAll5 : Nat → ℚ := fun _ => 5

/-- A stock table with 10 units of product 0 and 1 unit of everything else. -/
def stockShortOn1 : Nat → ℤ := fun p => if p = 0 then 10 else 1

/-- C7 counterexample: a request for 2 units of product 0 and 5 units of
product 1 fails on the second stock check, yet the Sale row, the SaleItem
for product 0 and its stock decrement are all persisted — sale processing is
not atomic. -/
theorem C7_failed_sale_leaves_partial_state :
    (process_sale priceAll5 0 PayMethod.CASH false [(0, 2), (1, 5)] stockShortOn1).success = false
  ∧ (process_sale priceAll5 0 PayMethod.CASH false [(0, 2), (1, 5)] stockShortOn1).sale_created = true
  ∧ (process_sale priceAll5 0 PayMethod.CASH false [(0, 2), (1, 5)] stockShortOn1).items.length = 1
  ∧ (process_sale priceAll5 0 PayMethod.CASH false [(0, 2), (1, 5)] stockShortOn1).stock 0 = 8
  ∧ stockShortOn1 0 = 10 := by
  refine ⟨?_, ?_, ?_, ?_, ?_⟩ <;> decide

/-- C7 amended: the per-item coupling does hold — after any process_sale
request, successful or not, the stock of every product equals its starting
stock minus the quantities of exactly the SaleItem rows that were persisted,
and the Sale row is always created; but a failed request keeps the partial
items and decrements written before the failing stock check, so failure does
not roll the request back. -/
theorem C7_stock_matches_persisted_items (price : Nat → ℚ) (today : ℤ)
    (pm : PayMethod) (hc : Bool) (req : List (Nat × ℤ)) (stock : Nat → ℤ) (pid : Nat) :
    (process_sale price today pm hc req stock).stock pid
      = stock pid - itemsQtyAt pid (process_sale price today pm hc req stock).items
  ∧ (process_sale price today pm hc req stock).sale_created = true := by
  refine ⟨process_sale_stock price today pm hc req stock pid, ?_⟩
  unfold process_sale
  by_cases hok : (processItems price req stock).ok
  · simp [hok]
  · simp [hok]

/-- The boolean-valued fields of the Debt model: the fields declared at
sales/models.py:112-120 are customer, sale, amount, amount_paid, balance,
status, due_date, created_at and updated_at — none of them boolean, and none
named is_paid. -/
def Debt.boolFields : List (String × (Debt → Bool)) := []

/-- Keyword filtering Debt.objects.filter(name=b) for a boolean value: the
keyword must resolve to a boolean field of the model, otherwise the ORM
raises FieldError. -/
def Debt.filterBool (name : String) (b : Bool) (debts : List Debt) :
    Except String (List Debt) :=
  match Debt.boolFields.find? (fun f => f.1 == name) with
  | some f => Except.ok (debts.filter (fun d => f.2 d == b))
  | none => Except.error ("FieldError: Cannot resolve keyword " ++ name ++ " into field")

/-- The debt statistics block of pos_admin_dashboard (users/views.py:198-201):
total_debts aggregates amount over all debts, paid_debts aggregates amount
over Debt.objects.filter(is_paid=True), and outstanding_debts is their
difference. -/
def pos_admin_dashboard_debt_stats (debts : List Debt) : Except String (ℚ × ℚ × ℚ) :=
  let total_debts := ledgerSum (debts.map (fun d => d.amount))
  match Debt.filterBool "is_paid" true debts with
  | Except.error e => Except.error e
  | Except.ok paid_list =>
    let paid_debts := ledgerSum (paid_list.map (fun d => d.amount))
    Except.ok (total_debts, paid_debts, total_debts - paid_debts)

/-- C9: for every state of the Debt table, the paid_debts computation of
pos_admin_dashboard raises FieldError — the Debt model has no is_paid field —
so the dashboard never completes, contradicting the claim that the aggregate
is well-defined and equal to the PAID-status total. -/
theorem C9_dashboard_raises_field_error (debts : List Debt) :
    pos_admin_dashboard_debt_stats debts
      = Except.error ("FieldError: Cannot resolve keyword " ++ "is_paid" ++ " into field") :=
  rfl
